import Mathlib

/-!
Shallow embedding of the configuration loader of package `config`
(`src/internal/config/config.go`).

Go strings are modelled as lists of Unicode code points (`List Nat`),
matching Go's view of a string as a sequence of runes for the purposes of
`strings.TrimSpace` and `strings.ToLower`.  The process environment is an
association list from variable names to values; `os.LookupEnv` is
`lookupEnv`, which distinguishes an unset variable (`none`) from a variable
set to the empty string (`some []`).

`time.Duration` is an `Int` counting nanoseconds, as in Go.

Errors built with `fmt.Errorf("invalid log level (%s) got=%q", EnvLogLevel, env)`
are modelled structurally as a `ConfigError` record carrying the fixed text,
the interpolated variable name and the interpolated raw value; `errors.Join`
on a non-empty slice is modelled as the non-empty list of those records, and
the final wrap `fmt.Errorf("failed to load config: %w", err)` preserves that
list.
-/

/-- A Go string as its sequence of runes (Unicode code points). -/
abbrev Str := List Nat

/-- Conversion from a Lean string literal to the rune-sequence model. -/
def str (s : String) : Str := s.toList.map Char.toNat

/-- The process environment: an association list of set variables.
`os.LookupEnv` reports `(value, true)` exactly for names present here. -/
abbrev Env := List (Str × Str)

/-- `os.LookupEnv`: the value of the first binding of `key`, or `none` when
the variable is unset. -/
def lookupEnv : Env → Str → Option Str
  | [], _ => none
  | (k, v) :: rest, key => if key = k then some v else lookupEnv rest key

/-- `getEnv(key, defaultValue)` from config.go: the variable's value when it
is set (even to the empty string), otherwise `defaultValue`. -/
def getEnv (e : Env) (key defaultValue : Str) : Str :=
  match lookupEnv e key with
  | some val => val
  | none => defaultValue

/-- `unicode.IsSpace` on a rune, used by `strings.TrimSpace`: the Unicode
White_Space code points. -/
def goIsSpace (n : Nat) : Bool :=
  decide (n = 0x9 ∨ n = 0xA ∨ n = 0xB ∨ n = 0xC ∨ n = 0xD ∨ n = 0x20 ∨
    n = 0x85 ∨ n = 0xA0 ∨ n = 0x1680 ∨ (0x2000 ≤ n ∧ n ≤ 0x200A) ∨
    n = 0x2028 ∨ n = 0x2029 ∨ n = 0x202F ∨ n = 0x205F ∨ n = 0x3000)

/-- `unicode.ToLower` on one rune, restricted to the mappings that can affect
this loader: ASCII `A`..`Z` map down by 32, and the only non-ASCII runes whose
simple lowercase mapping is relevant near the ASCII enum members are
U+0130 (maps to `i`), U+212A (Kelvin sign, maps to `k`) and U+212B (maps to
U+00E5).  Every other rune whose Go lowercase differs from itself lowers to a
non-ASCII rune, so it can never turn a non-member into one of the ASCII enum
members `debug`, `info`, `warn`, `error`, `text`, `json`, `stdout`, `stderr`,
and the loader never stores a lowercased string except those members. -/
def goToLowerRune (n : Nat) : Nat :=
  if 0x41 ≤ n ∧ n ≤ 0x5A then n + 32
  else if n = 0x130 then 0x69
  else if n = 0x212A then 0x6B
  else if n = 0x212B then 0xE5
  else n

/-- `strings.ToLower` under the rune model. -/
def goToLower (s : Str) : Str := s.map goToLowerRune

/-- `strings.TrimSpace`: drop `unicode.IsSpace` runes from both ends. -/
def goTrimSpace (s : Str) : Str :=
  ((s.dropWhile goIsSpace).reverse.dropWhile goIsSpace).reverse

/-- `LogLevel` is a Go string type. -/
abbrev LogLevel := Str

/-- `LogFormat` is a Go string type. -/
abbrev LogFormat := Str

/-- `LogOutput` is a Go string type. -/
abbrev LogOutput := Str

def LogLevelDebug : LogLevel := str "debug"

def LogLevelInfo : LogLevel := str "info"

def LogLevelWarn : LogLevel := str "warn"

def LogLevelError : LogLevel := str "error"

def LogFormatText : LogFormat := str "text"

def LogFormatJSON : LogFormat := str "json"

def LogOutputStdout : LogOutput := str "stdout"

def LogOutputStderr : LogOutput := str "stderr"

def EnvLogLevel : Str := str "LOG_LEVEL"

def EnvLogFormat : Str := str "LOG_FORMAT"

def EnvLogOutput : Str := str "LOG_OUTPUT"

def EnvServerAddress : Str := str "SERVER_ADDRESS"

def EnvServerReadTimeout : Str := str "SERVER_READ_TIMEOUT"

def EnvServerReadHeaderTimeout : Str := str "SERVER_READ_HEADER_TIMEOUT"

def EnvServerWriteTimeout : Str := str "SERVER_WRITE_TIMEOUT"

def EnvServerIdleTimeout : Str := str "SERVER_IDLE_TIMEOUT"

def EnvServerShutdownTimeout : Str := str "SERVER_SHUTDOWN_TIMEOUT"

def DefaultLogLevel : LogLevel := LogLevelInfo

def DefaultLogFormat : LogFormat := LogFormatText

def DefaultLogOutput : LogOutput := LogOutputStdout

def DefaultServerAddress : Str := str "localhost:8080"

/-- `time.Second` in nanoseconds. -/
def timeSecond : Int := 1000000000

/-- `time.Minute` in nanoseconds. -/
def timeMinute : Int := 60 * timeSecond

def DefaultServerReadTimeout : Int := 5 * timeSecond

def DefaultServerReadHeaderTimeout : Int := 2 * timeSecond

def DefaultServerWriteTimeout : Int := 10 * timeSecond

def DefaultServerIdleTimeout : Int := 1 * timeMinute

def DefaultServerShutdownTimeout : Int := 15 * timeSecond

def TCPPortMin : Nat := 0

def TCPPortMax : Nat := 65535

/-- The `Config` struct.  Fields that `New` does not assign keep Go's zero
values: the empty string for `serverAddress` and `0` for every duration. -/
structure Config where
  logLevel : LogLevel
  logFormat : LogFormat
  logOutput : LogOutput
  serverAddress : Str
  serverReadTimeout : Int
  serverReadHeaderTimeout : Int
  serverWriteTimeout : Int
  serverIdleTimeout : Int
  serverShutdownTimeout : Int
deriving DecidableEq, Repr

/-- One error appended by the loader, standing for
`fmt.Errorf("<text> (%s) got=%q", <varName>, <got>)`. -/
structure ConfigError where
  text : Str
  varName : Str
  got : Str
deriving DecidableEq, Repr

def errInvalidLogLevel : Str := str "invalid log level"

def errInvalidLogFormat : Str := str "invalid log format"

def errInvalidLogOutput : Str := str "invalid log output"

/-- The `loader` struct: the slice of accumulated errors. -/
structure loader where
  errs : List ConfigError
deriving DecidableEq, Repr

/-- `newLoader()`. -/
def newLoader : loader := { errs := [] }

/-- `(*loader).appendError`: `l.errs = append(l.errs, err)`. -/
def loader.appendError (l : loader) (err : ConfigError) : loader :=
  { errs := l.errs ++ [err] }

/-- `(*loader).logLevel`: read `LOG_LEVEL` (default `info`), trim and
lower-case, accept a member of {debug, info, warn, error}; otherwise append
an invalid-log-level error carrying the raw value and return `""`. -/
def loader.logLevel (l : loader) (e : Env) : LogLevel × loader :=
  let env := getEnv e EnvLogLevel DefaultLogLevel
  let val := goToLower (goTrimSpace env)
  if val = LogLevelDebug ∨ val = LogLevelInfo ∨ val = LogLevelWarn ∨ val = LogLevelError then
    (val, l)
  else
    ([], l.appendError { text := errInvalidLogLevel, varName := EnvLogLevel, got := env })

/-- `(*loader).logFormat`: read `LOG_FORMAT` (default `text`), trim and
lower-case, accept a member of {text, json}; otherwise append an
invalid-log-format error carrying the raw value and return `""`. -/
def loader.logFormat (l : loader) (e : Env) : LogFormat × loader :=
  let env := getEnv e EnvLogFormat DefaultLogFormat
  let val := goToLower (goTrimSpace env)
  if val = LogFormatText ∨ val = LogFormatJSON then
    (val, l)
  else
    ([], l.appendError { text := errInvalidLogFormat, varName := EnvLogFormat, got := env })

/-- `(*loader).logOutput`: read `LOG_OUTPUT` (default `stdout`), trim; if the
lower-cased trimmed value is stdout or stderr return that canonical member;
if the trimmed value is empty append an invalid-log-output error carrying the
raw value and return `""`; otherwise return the trimmed value verbatim. -/
def loader.logOutput (l : loader) (e : Env) : LogOutput × loader :=
  let env := getEnv e EnvLogOutput DefaultLogOutput
  let val := goTrimSpace env
  let v := goToLower val
  if v = LogOutputStdout ∨ v = LogOutputStderr then
    (v, l)
  else if val = [] then
    ([], l.appendError { text := errInvalidLogOutput, varName := EnvLogOutput, got := env })
  else
    (val, l)

/-- `(*loader).Err`: `nil` when no errors were accumulated, otherwise
`errors.Join(l.errs...)`, modelled as the list of accumulated errors. -/
def loader.Err (l : loader) : Option (List ConfigError) :=
  if l.errs = [] then none else some l.errs

/-- `New()`: run the three field loaders in struct-literal order over a fresh
loader, then return either the built `Config` and no error, or no `Config`
and the aggregated error.  The fields of `Config` that the struct literal in
the source does not mention keep their zero values. -/
def New (e : Env) : Option Config × Option (List ConfigError) :=
  let l0 := newLoader
  let p1 := l0.logLevel e
  let p2 := p1.2.logFormat e
  let p3 := p2.2.logOutput e
  let cfg : Config :=
    { logLevel := p1.1
      logFormat := p2.1
      logOutput := p3.1
      serverAddress := []
      serverReadTimeout := 0
      serverReadHeaderTimeout := 0
      serverWriteTimeout := 0
      serverIdleTimeout := 0
      serverShutdownTimeout := 0 }
  match p3.2.Err with
  | some errs => (none, some errs)
  | none => (some cfg, none)

/-- Position of an environment variable name in the fixed field order of the
specification: log level, log format, log output, server address, then the
five timeouts. -/
def fieldIndex (v : Str) : Nat :=
  if v = EnvLogLevel then 0
  else if v = EnvLogFormat then 1
  else if v = EnvLogOutput then 2
  else if v = EnvServerAddress then 3
  else if v = EnvServerReadTimeout then 4
  else if v = EnvServerReadHeaderTimeout then 5
  else if v = EnvServerWriteTimeout then 6
  else if v = EnvServerIdleTimeout then 7
  else if v = EnvServerShutdownTimeout then 8
  else 9

/-- The environment with every variable unset. -/
def envEmpty : Env := []

/-- Environment for the two-invalid-fields scenario of the specification:
`LOG_FORMAT` set to `xml` and `SERVER_READ_TIMEOUT` set to `bad`. -/
def envTwoInvalid : Env :=
  [(EnvLogFormat, str "xml"), (EnvServerReadTimeout, str "bad")]

/-- Environment with only `SERVER_READ_TIMEOUT` set, to a malformed duration. -/
def envBadReadTimeout : Env := [(EnvServerReadTimeout, str "bad")]

/-- Environment with a duplicated (shadowed) binding of `LOG_LEVEL`. -/
def envDupA : Env := [(EnvLogLevel, str "debug"), (EnvLogLevel, str "info")]

/-- Environment with a single binding of `LOG_LEVEL`. -/
def envDupB : Env := [(EnvLogLevel, str "debug")]

/-- Environment with `LOG_LEVEL` set to the empty string. -/
def envEmptyLogLevel : Env := [(EnvLogLevel, [])]

/-- Environment with an invalid `LOG_LEVEL` and an invalid (all-space)
`LOG_OUTPUT`, producing two errors in one load. -/
def envTwoErrors : Env := [(EnvLogLevel, str "verbose"), (EnvLogOutput, str " ")]

/-- Environment with `LOG_LEVEL` in mixed case with surrounding whitespace. -/
def envMixedLevel : Env := [(EnvLogLevel, str " DeBuG\t")]

/-- Environment with `LOG_FORMAT` set to the unsupported value `xml`. -/
def envBadFormat : Env := [(EnvLogFormat, str "xml")]

/-- Environment with `LOG_OUTPUT` set to upper-case `STDOUT`. -/
def envStdoutCaps : Env := [(EnvLogOutput, str "STDOUT")]

/-- Environment with `LOG_OUTPUT` set to the empty string. -/
def envEmptyOutput : Env := [(EnvLogOutput, str "")]

/-- Environment with `LOG_OUTPUT` set to a file path. -/
def envPathOutput : Env := [(EnvLogOutput, str "/var/log/app.log")]

/-- Environment with `LOG_OUTPUT` set to a mixed-case path with surrounding
whitespace. -/
def envPathMixed : Env := [(EnvLogOutput, str "  /Var/Log/App.log ")]

/-! ### Helper lemmas about the string model -/

theorem goIsSpace_goToLowerRune (n : Nat) : goIsSpace (goToLowerRune n) = goIsSpace n := by
  unfold goToLowerRune
  split_ifs with h1 h2 h3 h4
  · unfold goIsSpace; rw [decide_eq_decide]; omega
  · unfold goIsSpace; rw [decide_eq_decide]; omega
  · unfold goIsSpace; rw [decide_eq_decide]; omega
  · unfold goIsSpace; rw [decide_eq_decide]; omega
  · rfl

theorem dropWhile_space_append (pre s : Str) (h : ∀ x ∈ pre, goIsSpace x = true) :
    (pre ++ s).dropWhile goIsSpace = s.dropWhile goIsSpace := by
  induction pre with
  | nil => rfl
  | cons a t ih =>
    have ha : goIsSpace a = true := h a (by simp)
    simp only [List.cons_append, List.dropWhile_cons, ha, if_true]
    exact ih (fun x hx => h x (by simp [hx]))

theorem goTrimSpace_sandwich (ws1 ws2 core : Str) (c d : Nat) (cs ds : Str)
    (h1 : ∀ x ∈ ws1, goIsSpace x = true) (h2 : ∀ x ∈ ws2, goIsSpace x = true)
    (hc : core = c :: cs) (hcns : goIsSpace c = false)
    (hd : core.reverse = d :: ds) (hdns : goIsSpace d = false) :
    goTrimSpace (ws1 ++ core ++ ws2) = core := by
  unfold goTrimSpace
  have step1 : (ws1 ++ core ++ ws2).dropWhile goIsSpace = core ++ ws2 := by
    rw [List.append_assoc, dropWhile_space_append _ _ h1, hc, List.cons_append,
      List.dropWhile_cons_of_neg (by simp [hcns])]
  rw [step1, List.reverse_append, dropWhile_space_append _ _ (by simpa using h2), hd,
    List.dropWhile_cons_of_neg (by simp [hdns]), ← hd, List.reverse_reverse]

theorem goToLower_goTrimSpace_sandwich (ws1 ws2 core m : Str)
    (h1 : ∀ x ∈ ws1, goIsSpace x = true) (h2 : ∀ x ∈ ws2, goIsSpace x = true)
    (hmap : core.map goToLowerRune = m) (hne : m ≠ [])
    (hh : ∀ x ∈ m.head?, goIsSpace x = false)
    (hl : ∀ x ∈ m.getLast?, goIsSpace x = false) :
    goToLower (goTrimSpace (ws1 ++ core ++ ws2)) = m := by
  have hcore : core ≠ [] := by
    intro hceq
    rw [hceq, List.map_nil] at hmap
    exact hne hmap.symm
  obtain ⟨c, cs, hc⟩ := List.exists_cons_of_ne_nil hcore
  have hrev : core.reverse ≠ [] := by simp [hcore]
  obtain ⟨d, ds, hd⟩ := List.exists_cons_of_ne_nil hrev
  have hmh : m.head? = some (goToLowerRune c) := by
    rw [← hmap, hc]; rfl
  have hcns : goIsSpace c = false := by
    have hx := hh (goToLowerRune c) (by simp [hmh])
    rwa [goIsSpace_goToLowerRune] at hx
  have hml : m.getLast? = some (goToLowerRune d) := by
    rw [← List.head?_reverse, ← hmap, ← List.map_reverse, hd]; rfl
  have hdns : goIsSpace d = false := by
    have hx := hl (goToLowerRune d) (by simp [hml])
    rwa [goIsSpace_goToLowerRune] at hx
  rw [goTrimSpace_sandwich ws1 ws2 core c d cs ds h1 h2 hc hcns hd hdns]
  exact hmap

theorem loader.Err_some {l : loader} {errs : List ConfigError} (h : l.Err = some errs) :
    errs = l.errs ∧ errs ≠ [] := by
  unfold loader.Err at h
  split at h
  · cases h
  · next hne =>
    cases h
    exact ⟨rfl, hne⟩

theorem getEnv_of_some {e : Env} {k v : Str} (d : Str) (h : lookupEnv e k = some v) :
    getEnv e k d = v := by
  unfold getEnv
  rw [h]

/-! ### Behaviour of the loaders on each claim -/

/-- Claim C1: with every variable unset, `New` returns no error, and the log
fields do carry the documented defaults, but the server address and the five
timeouts are left at Go's zero values, not at the documented defaults
(`localhost:8080`, 5s, 2s, 10s, 1m, 15s): `New` never reads those variables,
contradicting the defaulting documented on the `Default*` constants. -/
theorem C1_defaults_partial :
    New envEmpty =
      (some
        { logLevel := DefaultLogLevel
          logFormat := DefaultLogFormat
          logOutput := DefaultLogOutput
          serverAddress := []
          serverReadTimeout := 0
          serverReadHeaderTimeout := 0
          serverWriteTimeout := 0
          serverIdleTimeout := 0
          serverShutdownTimeout := 0 },
        none) ∧
    DefaultServerAddress ≠ [] ∧ DefaultServerReadTimeout ≠ 0 ∧
    DefaultServerReadHeaderTimeout ≠ 0 ∧ DefaultServerWriteTimeout ≠ 0 ∧
    DefaultServerIdleTimeout ≠ 0 ∧ DefaultServerShutdownTimeout ≠ 0 := by
  decide

/-- Claim C2: with `LOG_FORMAT=xml` and `SERVER_READ_TIMEOUT=bad`, a single
call to `New` fails with exactly one error — the invalid log format — because
no loader for `SERVER_READ_TIMEOUT` is ever invoked, and so the claimed
second error naming that variable never appears. -/
theorem C2_one_error_not_two :
    New envTwoInvalid =
      (none, some [{ text := errInvalidLogFormat, varName := EnvLogFormat, got := str "xml" }]) := by
  decide

/-- Claim C3: with `SERVER_READ_TIMEOUT` set to the malformed duration text
`bad`, `New` succeeds with no error and leaves `serverReadTimeout` at `0`:
the five duration variables are never parsed at all. -/
theorem C3_durations_ignored :
    New envBadReadTimeout =
      (some
        { logLevel := DefaultLogLevel
          logFormat := DefaultLogFormat
          logOutput := DefaultLogOutput
          serverAddress := []
          serverReadTimeout := 0
          serverReadHeaderTimeout := 0
          serverWriteTimeout := 0
          serverIdleTimeout := 0
          serverShutdownTimeout := 0 },
        none) := by
  decide

/-- Claim C5: the outcome of `New` is exclusive — it returns a `Config`
exactly when the aggregated error is absent, and any aggregated error it
returns is a non-empty collection of field errors. -/
theorem C5_outcome_exclusive (e : Env) :
    ((New e).1.isSome ↔ (New e).2 = none) ∧
    ∀ errs, (New e).2 = some errs → errs ≠ [] := by
  simp only [New]
  split
  · next heq =>
    refine ⟨by simp, ?_⟩
    intro errs h
    cases h
    exact (loader.Err_some heq).2
  · simp

/-- Witness for C5 at a concrete environment producing two errors. -/
theorem C5_outcome_exclusive_witness :
    ([{ text := errInvalidLogLevel, varName := EnvLogLevel, got := str "verbose" },
      { text := errInvalidLogOutput, varName := EnvLogOutput, got := str " " }] :
      List ConfigError) ≠ [] :=
  (C5_outcome_exclusive envTwoErrors).2 _ (by decide)

/-- Claim C8: `New` is a deterministic function of the environment state —
two environments that agree on every variable lookup produce identical
outcomes, so repeating the call with the same environment repeats the
outcome. -/
theorem C8_deterministic (e1 e2 : Env) (h : ∀ k, lookupEnv e1 k = lookupEnv e2 k) :
    New e1 = New e2 := by
  simp only [New, loader.logLevel, loader.logFormat, loader.logOutput, getEnv, h]

/-- Witness for C8: two syntactically different environments with equal
lookups (one has a shadowed duplicate binding) load identically. -/
theorem C8_deterministic_witness : New envDupA = New envDupB :=
  C8_deterministic envDupA envDupB (by
    intro k
    by_cases hk : k = EnvLogLevel <;> simp [envDupA, envDupB, lookupEnv, hk])

/-- Claim C9: a variable set to the empty string is present, not absent —
`getEnv` returns the set value whenever the lookup succeeds (even for `""`)
and the default only when the lookup fails; consequently `LOG_LEVEL=""`
makes the log-level loader record an invalid-log-level error whose raw value
is the empty string, instead of falling back to `info`. -/
theorem C9_empty_is_present :
    (∀ (e : Env) (k d v : Str), lookupEnv e k = some v → getEnv e k d = v) ∧
    (∀ (e : Env) (k d : Str), lookupEnv e k = none → getEnv e k d = d) ∧
    (∀ (e : Env) (l : loader), lookupEnv e EnvLogLevel = some [] →
      l.logLevel e =
        ([], l.appendError { text := errInvalidLogLevel, varName := EnvLogLevel, got := [] })) := by
  refine ⟨?_, ?_, ?_⟩
  · intro e k d v h
    unfold getEnv
    rw [h]
  · intro e k d h
    unfold getEnv
    rw [h]
  · intro e l h
    simp only [loader.logLevel, getEnv, h]
    rfl

/-- Witness for C9 at the concrete environment with `LOG_LEVEL=""`. -/
theorem C9_empty_is_present_witness :
    newLoader.logLevel envEmptyLogLevel =
      ([], newLoader.appendError
        { text := errInvalidLogLevel, varName := EnvLogLevel, got := [] }) :=
  C9_empty_is_present.2.2 envEmptyLogLevel newLoader (by decide)

/-- Claim C4: for the two enum fields, any case variant of a valid member
with any leading and trailing whitespace parses to the canonical lower-case
member, and any other set value fails with an error carrying the variable
name and the raw, untrimmed, original-case value. -/
theorem C4_enum_fields :
    (∀ (e : Env) (l : loader) (ws1 ws2 core m : Str),
      lookupEnv e EnvLogLevel = some (ws1 ++ core ++ ws2) →
      (∀ x ∈ ws1, goIsSpace x = true) → (∀ x ∈ ws2, goIsSpace x = true) →
      core.map goToLowerRune = m →
      m ∈ [LogLevelDebug, LogLevelInfo, LogLevelWarn, LogLevelError] →
      l.logLevel e = (m, l)) ∧
    (∀ (e : Env) (l : loader) (s : Str),
      lookupEnv e EnvLogLevel = some s →
      goToLower (goTrimSpace s) ∉ [LogLevelDebug, LogLevelInfo, LogLevelWarn, LogLevelError] →
      l.logLevel e =
        ([], l.appendError { text := errInvalidLogLevel, varName := EnvLogLevel, got := s })) ∧
    (∀ (e : Env) (l : loader) (ws1 ws2 core m : Str),
      lookupEnv e EnvLogFormat = some (ws1 ++ core ++ ws2) →
      (∀ x ∈ ws1, goIsSpace x = true) → (∀ x ∈ ws2, goIsSpace x = true) →
      core.map goToLowerRune = m →
      m ∈ [LogFormatText, LogFormatJSON] →
      l.logFormat e = (m, l)) ∧
    (∀ (e : Env) (l : loader) (s : Str),
      lookupEnv e EnvLogFormat = some s →
      goToLower (goTrimSpace s) ∉ [LogFormatText, LogFormatJSON] →
      l.logFormat e =
        ([], l.appendError { text := errInvalidLogFormat, varName := EnvLogFormat, got := s })) := by
  refine ⟨?_, ?_, ?_, ?_⟩
  · intro e l ws1 ws2 core m hlook h1 h2 hmap hm
    simp only [List.mem_cons, List.mem_singleton, List.not_mem_nil, or_false] at hm
    have hside : m ≠ [] ∧ (∀ x ∈ m.head?, goIsSpace x = false) ∧
        (∀ x ∈ m.getLast?, goIsSpace x = false) := by
      rcases hm with h | h | h | h <;> subst h <;> exact ⟨by decide, by decide, by decide⟩
    have hval := goToLower_goTrimSpace_sandwich ws1 ws2 core m h1 h2 hmap
      hside.1 hside.2.1 hside.2.2
    have hcond : m = LogLevelDebug ∨ m = LogLevelInfo ∨ m = LogLevelWarn ∨ m = LogLevelError := hm
    simp only [loader.logLevel]
    rw [getEnv_of_some DefaultLogLevel hlook, hval, if_pos hcond]
  · intro e l s hlook hnm
    simp only [loader.logLevel]
    rw [getEnv_of_some DefaultLogLevel hlook, if_neg (by simpa using hnm)]
  · intro e l ws1 ws2 core m hlook h1 h2 hmap hm
    simp only [List.mem_cons, List.mem_singleton, List.not_mem_nil, or_false] at hm
    have hside : m ≠ [] ∧ (∀ x ∈ m.head?, goIsSpace x = false) ∧
        (∀ x ∈ m.getLast?, goIsSpace x = false) := by
      rcases hm with h | h <;> subst h <;> exact ⟨by decide, by decide, by decide⟩
    have hval := goToLower_goTrimSpace_sandwich ws1 ws2 core m h1 h2 hmap
      hside.1 hside.2.1 hside.2.2
    have hcond : m = LogFormatText ∨ m = LogFormatJSON := hm
    simp only [loader.logFormat]
    rw [getEnv_of_some DefaultLogFormat hlook, hval, if_pos hcond]
  · intro e l s hlook hnm
    simp only [loader.logFormat]
    rw [getEnv_of_some DefaultLogFormat hlook, if_neg (by simpa using hnm)]

/-- Witness for C4: a mixed-case whitespace-padded `LOG_LEVEL` parses to
canonical `debug`, and `LOG_FORMAT=xml` records an error carrying the raw
value. -/
theorem C4_enum_fields_witness :
    newLoader.logLevel envMixedLevel = (LogLevelDebug, newLoader) ∧
    newLoader.logFormat envBadFormat =
      ([], newLoader.appendError
        { text := errInvalidLogFormat, varName := EnvLogFormat, got := str "xml" }) :=
  ⟨C4_enum_fields.1 envMixedLevel newLoader (str " ") (str "\t") (str "DeBuG") LogLevelDebug
      (by decide) (by decide) (by decide) (by decide) (by decide),
    C4_enum_fields.2.2.2 envBadFormat newLoader (str "xml") (by decide) (by decide)⟩

theorem logOutput_custom (e : Env) (l : loader) (s : Str)
    (hlook : lookupEnv e EnvLogOutput = some s)
    (h1 : goToLower (goTrimSpace s) ≠ LogOutputStdout)
    (h2 : goToLower (goTrimSpace s) ≠ LogOutputStderr)
    (h3 : goTrimSpace s ≠ []) :
    l.logOutput e = (goTrimSpace s, l) := by
  simp only [loader.logOutput]
  rw [getEnv_of_some DefaultLogOutput hlook, if_neg (not_or.mpr ⟨h1, h2⟩), if_neg h3]

/-- Claim C6: the log-output loader maps any spelling whose trimmed
lower-case form is `stdout` to the canonical `stdout`, records an
invalid-log-output error carrying the raw value when the value trims to the
empty string, and accepts any other non-empty trimmed value verbatim,
without lower-casing. -/
theorem C6_log_output :
    (∀ (e : Env) (l : loader) (s : Str),
      lookupEnv e EnvLogOutput = some s →
      goToLower (goTrimSpace s) = LogOutputStdout →
      l.logOutput e = (LogOutputStdout, l)) ∧
    (∀ (e : Env) (l : loader) (s : Str),
      lookupEnv e EnvLogOutput = some s →
      goTrimSpace s = [] →
      l.logOutput e =
        ([], l.appendError { text := errInvalidLogOutput, varName := EnvLogOutput, got := s })) ∧
    (∀ (e : Env) (l : loader) (s : Str),
      lookupEnv e EnvLogOutput = some s →
      goToLower (goTrimSpace s) ≠ LogOutputStdout →
      goToLower (goTrimSpace s) ≠ LogOutputStderr →
      goTrimSpace s ≠ [] →
      l.logOutput e = (goTrimSpace s, l)) := by
  refine ⟨?_, ?_, ?_⟩
  · intro e l s hlook hv
    simp only [loader.logOutput]
    rw [getEnv_of_some DefaultLogOutput hlook, if_pos (Or.inl hv), hv]
  · intro e l s hlook htrim
    simp only [loader.logOutput]
    rw [getEnv_of_some DefaultLogOutput hlook, htrim, if_neg (by decide), if_pos rfl]
  · intro e l s hlook h1 h2 h3
    exact logOutput_custom e l s hlook h1 h2 h3

/-- Witness for C6 at `LOG_OUTPUT=STDOUT`, `LOG_OUTPUT=""` and a path. -/
theorem C6_log_output_witness :
    newLoader.logOutput envStdoutCaps = (LogOutputStdout, newLoader) ∧
    newLoader.logOutput envEmptyOutput =
      ([], newLoader.appendError
        { text := errInvalidLogOutput, varName := EnvLogOutput, got := [] }) ∧
    newLoader.logOutput envPathOutput = (str "/var/log/app.log", newLoader) := by
  refine ⟨C6_log_output.1 envStdoutCaps newLoader (str "STDOUT") (by decide) (by decide),
    C6_log_output.2.1 envEmptyOutput newLoader [] (by decide) (by decide), ?_⟩
  have h := C6_log_output.2.2 envPathOutput newLoader (str "/var/log/app.log")
    (by decide) (by decide) (by decide) (by decide)
  rwa [show goTrimSpace (str "/var/log/app.log") = str "/var/log/app.log" by decide] at h

/-- Claim C10: a non-matching non-empty `LOG_OUTPUT` value is stored exactly
as the trimmed input — whitespace removed, letter case preserved — so the raw
untrimmed string is never the stored destination when they differ. -/
theorem C10_custom_output_trimmed (e : Env) (l : loader) (s : Str)
    (hlook : lookupEnv e EnvLogOutput = some s)
    (h1 : goToLower (goTrimSpace s) ≠ LogOutputStdout)
    (h2 : goToLower (goTrimSpace s) ≠ LogOutputStderr)
    (h3 : goTrimSpace s ≠ []) :
    (l.logOutput e).1 = goTrimSpace s ∧
    (s ≠ goTrimSpace s → (l.logOutput e).1 ≠ s) := by
  rw [logOutput_custom e l s hlook h1 h2 h3]
  exact ⟨rfl, fun hs => Ne.symm hs⟩

/-- Witness for C10 at `LOG_OUTPUT="  /Var/Log/App.log "`: stored trimmed
with case preserved, and not equal to the raw untrimmed value. -/
theorem C10_custom_output_trimmed_witness :
    (newLoader.logOutput envPathMixed).1 = str "/Var/Log/App.log" ∧
    (newLoader.logOutput envPathMixed).1 ≠ str "  /Var/Log/App.log " := by
  have h := C10_custom_output_trimmed envPathMixed newLoader (str "  /Var/Log/App.log ")
    (by decide) (by decide) (by decide) (by decide)
  exact ⟨by rw [h.1]; decide, h.2 (by decide)⟩

theorem fieldIndex_logLevel : fieldIndex EnvLogLevel = 0 := by decide

theorem fieldIndex_logFormat : fieldIndex EnvLogFormat = 1 := by decide

theorem fieldIndex_logOutput : fieldIndex EnvLogOutput = 2 := by decide

theorem logLevel_errs_shape (l : loader) (e : Env) :
    ((l.logLevel e).2).errs = l.errs ∨
      ∃ err : ConfigError, err.varName = EnvLogLevel ∧
        ((l.logLevel e).2).errs = l.errs ++ [err] := by
  simp only [loader.logLevel]
  split
  · exact Or.inl rfl
  · exact Or.inr ⟨_, rfl, rfl⟩

theorem logFormat_errs_shape (l : loader) (e : Env) :
    ((l.logFormat e).2).errs = l.errs ∨
      ∃ err : ConfigError, err.varName = EnvLogFormat ∧
        ((l.logFormat e).2).errs = l.errs ++ [err] := by
  simp only [loader.logFormat]
  split
  · exact Or.inl rfl
  · exact Or.inr ⟨_, rfl, rfl⟩

theorem logOutput_errs_shape (l : loader) (e : Env) :
    ((l.logOutput e).2).errs = l.errs ∨
      ∃ err : ConfigError, err.varName = EnvLogOutput ∧
        ((l.logOutput e).2).errs = l.errs ++ [err] := by
  simp only [loader.logOutput]
  split
  · exact Or.inl rfl
  · split
    · exact Or.inr ⟨_, rfl, rfl⟩
    · exact Or.inl rfl

/-- Claim C7: whatever the environment, the errors in the aggregated result
appear in strictly increasing position of the fixed field order (log level,
log format, log output, server address, then the five timeouts). -/
theorem C7_errors_ordered (e : Env) (errs : List ConfigError)
    (h : (New e).2 = some errs) :
    List.Chain' (fun a b => fieldIndex a.varName < fieldIndex b.varName) errs := by
  simp only [New] at h
  split at h
  · next heq =>
    have h2 : _ = errs := Option.some.inj h
    subst h2
    have hes := (loader.Err_some heq).1
    rcases logLevel_errs_shape newLoader e with hA | ⟨e1, hv1, hA⟩ <;>
      rcases logFormat_errs_shape (newLoader.logLevel e).2 e with hB | ⟨e2, hv2, hB⟩ <;>
        rcases logOutput_errs_shape ((newLoader.logLevel e).2.logFormat e).2 e
            with hC | ⟨e3, hv3, hC⟩ <;>
          rw [hC, hB, hA] at hes <;> subst hes <;>
            simp_all [newLoader, List.chain'_cons, List.chain'_singleton,
              fieldIndex_logLevel, fieldIndex_logFormat, fieldIndex_logOutput]
  · simp at h

/-- Witness for C7: with an invalid `LOG_LEVEL` and an all-space
`LOG_OUTPUT`, the two errors of the load appear in field order. -/
theorem C7_errors_ordered_witness :
    List.Chain' (fun a b : ConfigError => fieldIndex a.varName < fieldIndex b.varName)
      [{ text := errInvalidLogLevel, varName := EnvLogLevel, got := str "verbose" },
       { text := errInvalidLogOutput, varName := EnvLogOutput, got := str " " }] :=
  C7_errors_ordered envTwoErrors
    [{ text := errInvalidLogLevel, varName := EnvLogLevel, got := str "verbose" },
     { text := errInvalidLogOutput, varName := EnvLogOutput, got := str " " }]
    (by decide)
